import Mathlib

/-!
Shallow embedding of the command-and-prompt orchestration engine of the
`Python.Trading.Telegram.Declarative` repository, together with proofs of the
behavioural claims about it.

Each definition mirrors one Python function of the repository:

* `is_empty_or_none`, `ensure_list` — `venantvr/telegram/tools/utils.py`
* `is_valid_message`, `send_message` — `venantvr/telegram/message_queue.py`
  (`MessageSender._is_valid_message`, `MessageSender.send_message`)
* `post_with_retry` — `venantvr/telegram/client.py`
  (`TelegramClient._post_with_retry`)
* `parse_command` — `venantvr/telegram/service.py` (`TelegramService.parse_command`)
* `process_command` — `venantvr/telegram/handler.py` (`TelegramHandler.process_command`)
* `log_prompt`, `get_last_active_prompt`, `resolve_active_prompt` —
  `src/venantvr/telegram/history.py` (`TelegramHistoryManager`)
* `handle_text_message`, `process_interactive_prompt`, `execute_command` —
  `venantvr/telegram/notification.py` (`TelegramNotificationService`)

Side effects are made explicit: the SQLite history table becomes a list of
records in insertion order (rows are only appended, and `timestamp DESC`
agrees with reverse insertion order because `datetime.now()` is monotone
within a run), messages handed to `send_message` and values returned to the
caller are collected in explicit lists, and each invocation of a bound
handler method is recorded as an event.
-/

/-- A reply-markup value as it occurs in the code: either a plain string
(`""` for prompt payloads) or the `json.dumps` image of an inline keyboard,
a grid of buttons each holding `(text, callback_data)`.  Modelling the
serialized keyboard by the keyboard itself keeps `is_empty_or_none` faithful:
a dumped keyboard is a non-empty string, hence never empty. -/
inductive MarkupValue
  | str (s : String)
  | inlineKeyboard (rows : List (List (String × String)))
  deriving DecidableEq, Repr

/-- `classes/payload.py TelegramPayload`: a `TypedDict` with keys `text` and
`reply_markup`; `Option` models a key that is absent or `None`. -/
structure TelegramPayload where
  text : Option String
  reply_markup : Option MarkupValue
  deriving DecidableEq, Repr

/-- `tools/utils.py is_empty_or_none` on the `text` field: value is `None` or
the empty string. -/
def is_empty_or_none_str : Option String → Bool
  | none => true
  | some s => s == ""

/-- `tools/utils.py is_empty_or_none` on the `reply_markup` field: `None` or
an empty string; a dumped keyboard is a non-empty string, so never empty. -/
def is_empty_or_none_markup : Option MarkupValue → Bool
  | none => true
  | some (.str s) => s == ""
  | some (.inlineKeyboard _) => false

/-- `message_queue.py MessageSender._is_valid_message`: the message is truthy
and at least one of `text`, `reply_markup` is neither `None` nor `""`. -/
def is_valid_message (message : TelegramPayload) : Bool :=
  !is_empty_or_none_str message.text || !is_empty_or_none_markup message.reply_markup

/-- `message_queue.py MessageSender.send_message`: each message of the list
(`ensure_list` wraps a single payload) is appended to the outgoing queue when
valid, otherwise discarded with a warning.  The queue is the explicit first
argument; the result is the queue after the call. -/
def send_message (outgoing_queue : List TelegramPayload)
    (messages : List TelegramPayload) : List TelegramPayload :=
  messages.foldl
    (fun q message => if is_valid_message message then q ++ [message] else q)
    outgoing_queue

/-! ### Transport client: `client.py TelegramClient._post_with_retry` -/

/-- Outcome of one `requests.post` call inside the retry loop. -/
inductive AttemptOutcome
  | success (resp : Nat)
  | httpError (status : Nat)
  | connectionError
  | otherRequestError
  deriving DecidableEq, Repr

/-- What `_post_with_retry` finally does: return the response, or raise
`TelegramAPIError` (with the HTTP status when raised directly on a
non-recoverable 4xx, without one after exhausting the attempts), or raise
`TelegramNetworkError`. -/
inductive PostResult
  | ok (resp : Nat)
  | apiError (status : Option Nat)
  | networkError
  deriving DecidableEq, Repr

/-- The observable trace of `_post_with_retry`: how many posts were made,
every `time.sleep` performed as `(attempt index, delay in seconds)`, and the
final result. -/
structure RetryTrace where
  attempts : Nat
  sleeps : List (Nat × ℚ)
  result : PostResult
  deriving DecidableEq, Repr

/-- `client.py` line 71: a 4xx status other than 429 is non-recoverable
(`status_code` is truthy, so a missing status — modelled as `0` — falls to
the recoverable branch). -/
def nonRecoverableStatus (status : Nat) : Bool :=
  decide (0 < status) && decide (400 ≤ status) && decide (status < 500) && (status != 429)

/-- One pass of the `for attempt in range(max_retries)` loop of
`_post_with_retry`, starting at `attempt = maxRetries - remaining`.
`lastHttp` records whether `last_exception` is an `HTTPError` (it decides
which exception the exhausted loop raises).  A recoverable failure computes
`wait_time = (2 ** attempt) * 0.5` and sleeps only when
`attempt < max_retries - 1`. -/
def postLoop (outcomes : Nat → AttemptOutcome) (maxRetries : Nat) :
    Nat → Bool → RetryTrace
  | 0, lastHttp =>
      { attempts := 0, sleeps := [],
        result := if lastHttp then .apiError none else .networkError }
  | remaining + 1, _ =>
      let attempt := maxRetries - (remaining + 1)
      match outcomes attempt with
      | .success resp => { attempts := 1, sleeps := [], result := .ok resp }
      | .httpError status =>
          if nonRecoverableStatus status then
            { attempts := 1, sleeps := [], result := .apiError (some status) }
          else
            let rest := postLoop outcomes maxRetries remaining true
            if attempt < maxRetries - 1 then
              { attempts := rest.attempts + 1,
                sleeps := (attempt, 2 ^ attempt * (1 / 2 : ℚ)) :: rest.sleeps,
                result := rest.result }
            else
              { attempts := rest.attempts + 1, sleeps := rest.sleeps,
                result := rest.result }
      | .connectionError =>
          let rest := postLoop outcomes maxRetries remaining false
          if attempt < maxRetries - 1 then
            { attempts := rest.attempts + 1,
              sleeps := (attempt, 2 ^ attempt * (1 / 2 : ℚ)) :: rest.sleeps,
              result := rest.result }
          else
            { attempts := rest.attempts + 1, sleeps := rest.sleeps,
              result := rest.result }
      | .otherRequestError =>
          { attempts := 1, sleeps := [], result := .networkError }

/-- `client.py TelegramClient._post_with_retry`: run the retry loop over the
attempt outcomes.  `last_exception` starts as `None`, which is not an
`HTTPError`, so the initial flag is `false`. -/
def post_with_retry (outcomes : Nat → AttemptOutcome) (maxRetries : Nat := 3) :
    RetryTrace :=
  postLoop outcomes maxRetries maxRetries false

/-! ### Callback mini-protocol: `service.py TelegramService.parse_command`

The Python code matches `callback_data` against the anchored regex
`^((?:ask|respond|cancel|confirm):)?(\/\w+)(?::(.*))?$` and splits the third
group on `;`.  The regex is embedded character by character on `List Char`:
the verb alternation is deterministic (no two verbs share a prefix followed
by `:`), `\w+` is maximal munch (a shorter match of `\w+` still leaves a word
character where `:` or the end is required, so backtracking inside `\w+`
never succeeds), and when the optional verb group matches but the rest of the
pattern fails the engine retries without it. -/

/-- `\w` of the regex: letters, digits and underscore. -/
def isWordChar (c : Char) : Bool := c.isAlphanum || c == '_'

/-- Match a literal pattern at the head of the input, returning the rest. -/
def matchLiteral : List Char → List Char → Option (List Char)
  | [], rest => some rest
  | _, [] => none
  | p :: ps, c :: cs => if p == c then matchLiteral ps cs else none

/-- The verb alternation `ask|respond|cancel|confirm`, in the regex's order. -/
def promptVerbs : List (List Char) :=
  [['a', 's', 'k'],
   ['r', 'e', 's', 'p', 'o', 'n', 'd'],
   ['c', 'a', 'n', 'c', 'e', 'l'],
   ['c', 'o', 'n', 'f', 'i', 'r', 'm']]

/-- Group 1 `((?:ask|respond|cancel|confirm):)?`: the first verb of the
alternation followed by `:` that matches at the start of the data. -/
def stripVerb : List (List Char) → List Char → Option (List Char × List Char)
  | [], _ => none
  | v :: vs, data =>
      match matchLiteral (v ++ [':']) data with
      | some rest => some (v, rest)
      | none => stripVerb vs data

/-- Groups 2 and 3, `(\/\w+)(?::(.*))?$`: a slash, one or more word
characters, then either the end of the data or `:` and the raw parameter
text. -/
def parseBody (s : List Char) : Option (List Char × Option (List Char)) :=
  match s with
  | '/' :: rest =>
      let tok := rest.takeWhile isWordChar
      if tok.isEmpty then none
      else
        match rest.dropWhile isWordChar with
        | [] => some ('/' :: tok, none)
        | ':' :: ps => some ('/' :: tok, some ps)
        | _ => none
  | _ => none

/-- Python `str.split(';')` on a non-empty string, used on the third group. -/
def splitSemiAux : List Char → List Char → List String
  | [], acc => [String.mk acc.reverse]
  | c :: cs, acc =>
      if c == ';' then String.mk acc.reverse :: splitSemiAux cs []
      else splitSemiAux cs (c :: acc)

/-- Python `str.split(';')`. -/
def splitSemi (s : List Char) : List String := splitSemiAux s []

/-- `service.py` line 110: `params_str.split(';') if params_str else []` —
a missing or empty third group yields no arguments. -/
def argsOfParams : Option (List Char) → List String
  | none => []
  | some [] => []
  | some ps => splitSemi ps

/-- Modelled from the spec: `classes/enums.py` (`DynamicEnum.from_value`, the
`Command`/`Menu` enums used by `TelegramService._cast_to_enum`) is not under
src/.  Spec §9 describes the identifiers as "created on first use from
arbitrary strings" in a globally mutable registry keyed by string (the
standalone copy in `tests/bot-no-args.py` implements exactly that, and never
raises), so casting a token always yields a member whose `value` is the
token.  The model keeps just that value. -/
def cast_to_enum (value : String) : Option String := some value

/-- `service.py TelegramService.parse_command` on the `callback_data` string:
the optional verb, the `Command`/`Menu` token (its enum member's value) and
the semicolon-separated argument list.  An unmatched data string yields
`(None, None, [])`. -/
def parse_command (data : List Char) : Option String × Option String × List String :=
  match stripVerb promptVerbs data with
  | some (v, rest) =>
      match parseBody rest with
      | some (cmd, ps) =>
          (some (String.mk v), cast_to_enum (String.mk cmd), argsOfParams ps)
      | none =>
          -- the regex engine backtracks to the empty optional verb group
          match parseBody data with
          | some (cmd, ps) => (none, cast_to_enum (String.mk cmd), argsOfParams ps)
          | none => (none, none, [])
  | none =>
      match parseBody data with
      | some (cmd, ps) => (none, cast_to_enum (String.mk cmd), argsOfParams ps)
      | none => (none, none, [])

/-! ### Command registry and handler: `decorators.py`, `handler.py` -/

/-- The type-coercion callables stored in `kwargs_types`.  The handlers of
this repository declare `str` and `int` coercers (`tests/bot-two-args.py`
registers `{"name": str, "age": int}`); any further callable would enter the
model the same way, as a partial parsing function. -/
inductive PyType
  | str
  | int
  deriving DecidableEq, Repr

/-- A value produced by applying a coercer to an argument string. -/
inductive PyVal
  | s (v : String)
  | i (v : Int)
  deriving DecidableEq, Repr

/-- Python `int(text)`: surrounding whitespace is stripped, an optional sign
precedes one or more decimal digits; anything else raises `ValueError`
(underscore digit grouping of Python literals is not modelled — the bot's
argument strings are plain digit strings). -/
def digitsVal : List Char → Option Nat
  | [] => none
  | ds =>
      if ds.all (fun c => c.isDigit) then
        some (ds.foldl (fun n c => n * 10 + (c.toNat - 48)) 0)
      else none

/-- Python `int(text)` (see `digitsVal`). -/
def pythonInt? (text : String) : Option Int :=
  let cs := ((text.data.dropWhile (fun c => c.isWhitespace)).reverse.dropWhile
      (fun c => c.isWhitespace)).reverse
  match cs with
  | '+' :: ds => (digitsVal ds).map Int.ofNat
  | '-' :: ds => (digitsVal ds).map (fun n => -(n : Int))
  | ds => (digitsVal ds).map Int.ofNat

/-- `expected_type(arguments[i])` of `handler.py`: `str` never fails, `int`
fails exactly when Python's `int` raises. -/
def coerce : PyType → String → Option PyVal
  | .str, v => some (.s v)
  | .int, v => (pythonInt? v).map .i

/-- `expected_type.__name__`, used in the diagnostic text. -/
def typeName : PyType → String
  | .str => "str"
  | .int => "int"

/-- One `COMMAND_REGISTRY` entry as built by the `@command` decorator
(`decorators.py`): the registered function's name (checked by `hasattr`), the
prompt questions, the argument coercers and the argument names taken from the
function signature.  `menu`, `description` and the enum member never influence
the behaviour modelled here and are omitted. -/
structure CommandDetails where
  action_name : String
  asks : List String
  kwargs_types : List (String × PyType)
  arg_names : List String
  deriving DecidableEq, Repr

/-- `kwargs_types.get(arg_name, str)`: the declared coercer, `str` by
default. -/
def lookupType (kwargs_types : List (String × PyType)) (name : String) : PyType :=
  match kwargs_types.find? (fun p => p.1 == name) with
  | some p => p.2
  | none => .str

/-- What a bound handler method returns: one payload, a list of payloads, or
`None` (`handler.py` return type `Union[TelegramPayload, List[TelegramPayload],
None]`). -/
inductive HandlerReturn
  | one (p : TelegramPayload)
  | many (ps : List TelegramPayload)
  | nothing
  deriving DecidableEq, Repr

/-- A `TelegramHandler` subclass instance: the method names defined on it
(what `hasattr(self, ...)` sees), its legacy `command_actions` table (menu
value paired with the command values under it, in key order) and the
user-supplied behaviour of its bound methods. -/
structure Handler where
  ownedMethods : List String
  command_actions : List (String × List String)
  run : String → List (String × PyVal) → HandlerReturn

/-- `handler.py` line 27: `f"Commande '{command.value}' non reconnue."`. -/
def unknown_command_payload (command : String) : TelegramPayload :=
  ⟨some ("Commande '" ++ command ++ "' non reconnue."), some (.str "")⟩

/-- `handler.py` line 42: the arity diagnostic. -/
def arity_error_payload : TelegramPayload :=
  ⟨some "Erreur interne: nombre d'arguments incorrect pour la commande.",
    some (.str "")⟩

/-- `handler.py` line 53: the coercion diagnostic, naming the bad argument
value and the expected type. -/
def coercion_error_payload (arg_value arg_name : String) (t : PyType) :
    TelegramPayload :=
  ⟨some ("Argument '" ++ arg_value ++ "' pour '" ++ arg_name ++
      "' est invalide. Type attendu : " ++ typeName t ++ "."),
    some (.str "")⟩

/-- The coercion loop of `handler.py` lines 46-56: walk `arg_names` and
`arguments` together, coerce each value with its declared type, and stop at
the first failure with `(arg_name, expected_type, bad value)`. -/
def coerceArgs (kwargs_types : List (String × PyType)) :
    List String → List String →
    Except (String × PyType × String) (List (String × PyVal))
  | [], _ => .ok []
  | _ :: _, [] => .ok []
  | n :: ns, v :: vs =>
      match coerce (lookupType kwargs_types n) v with
      | some val =>
          match coerceArgs kwargs_types ns vs with
          | .ok rest => .ok ((n, val) :: rest)
          | .error e => .error e
      | none => .error (n, lookupType kwargs_types n, v)

/-- `handler.py TelegramHandler.process_command`.  The first component
records the invocation of the bound method (`None` when it was not invoked),
the second is the Python return value: the registry miss diagnostic, `None`
when another handler owns the method, the arity diagnostic, the coercion
diagnostic, or the bound method's own result. -/
def process_command (registry : String → Option CommandDetails)
    (handler : Handler) (command : String) (arguments : List String) :
    Option (List (String × PyVal)) × HandlerReturn :=
  match registry command with
  | none => (none, .one (unknown_command_payload command))
  | some details =>
      if details.action_name ∉ handler.ownedMethods then
        (none, .nothing)
      else if arguments.length ≠ details.arg_names.length then
        (none, .one arity_error_payload)
      else
        match coerceArgs details.kwargs_types details.arg_names arguments with
        | .error (n, t, v) => (none, .one (coercion_error_payload v n t))
        | .ok kwargs => (some kwargs, handler.run command kwargs)

/-! ### History store: `src/venantvr/telegram/history.py` -/

/-- `classes/types.py CurrentPrompt` (the module is not under src/; the
fields are those used at every construction site in `notification.py` and
`history.py`): the prompt verb, the target command's value, the argument
strings collected so far and the index of the question last asked. -/
structure CurrentPrompt where
  action : String
  command : String
  arguments : List String
  current_prompt_index : Nat
  deriving DecidableEq, Repr

/-- One row of the `interactions` table, in insertion order (rows are only
appended, and `ORDER BY timestamp DESC` agrees with reverse insertion order
because `datetime.now()` is monotone within a run).  `prompt` is the decoded
JSON `content` of a `prompt_start` row, `none` for plain interaction rows
whose content the model never reads. -/
structure InteractionRecord where
  direction : String
  chat_id : Int
  message_type : String
  prompt : Option CurrentPrompt
  is_prompt : Bool
  prompt_status : Option String
  deriving DecidableEq, Repr

/-- `history.py TelegramHistoryManager.log_prompt`: insert a `prompt_start`
row with status `active` for the chat. -/
def log_prompt (db : List InteractionRecord) (prompt : CurrentPrompt)
    (chat_id : Int) : List InteractionRecord :=
  db ++ [⟨"system", chat_id, "prompt_start", some prompt, true, some "active"⟩]

/-- The `WHERE` clause of `get_last_active_prompt`: same chat, a prompt row,
status `active`. -/
def is_active_prompt_row (chat_id : Int) (r : InteractionRecord) : Bool :=
  r.chat_id == chat_id && r.is_prompt && r.prompt_status == some "active"

/-- `history.py TelegramHistoryManager.get_last_active_prompt`: the content
of the most recent active prompt row of the chat (`ORDER BY timestamp DESC
LIMIT 1`). -/
def get_last_active_prompt (db : List InteractionRecord) (chat_id : Int) :
    Option CurrentPrompt :=
  match db.reverse.find? (is_active_prompt_row chat_id) with
  | some r => r.prompt
  | none => none

/-- `history.py TelegramHistoryManager.resolve_active_prompt`: flip the
status of every row of the chat whose status is `active` to `resolved`
(the `UPDATE` has no `LIMIT`). -/
def resolve_active_prompt (db : List InteractionRecord) (chat_id : Int) :
    List InteractionRecord :=
  db.map fun r =>
    if r.chat_id == chat_id && r.prompt_status == some "active" then
      { r with prompt_status := some "resolved" }
    else r

/-! ### Router / prompt engine: `notification.py TelegramNotificationService`

Each step returns a `PromptOutcome`: the history store after the step, the
payloads handed directly to `send_message` during the step, the payloads
returned to `process_commands` (which also forwards them to `send_message`),
and the bound-method invocations performed, each as (command value, keyword
arguments). -/

/-- The observable outcome of one router step. -/
structure PromptOutcome where
  db : List InteractionRecord
  sent : List TelegramPayload
  returned : List TelegramPayload
  invocations : List (String × List (String × PyVal))

/-- A question payload `{"text": prompt_message, "reply_markup": ""}`. -/
def question_payload (q : String) : TelegramPayload :=
  ⟨some q, some (.str "")⟩

/-- `notification.py` line 205. -/
def ask_missing_payload : TelegramPayload :=
  ⟨some "Erreur : Cette commande nécessite des arguments.", some (.str "")⟩

/-- `notification.py` line 219. -/
def no_active_prompt_payload : TelegramPayload :=
  ⟨some "Erreur : Aucun prompt actif.", some (.str "")⟩

/-- `COMMAND_REGISTRY.get(command.value, {})` followed by
`.get("asks", [])`: the declared questions, `[]` for an unregistered
command. -/
def asksOf (registry : String → Option CommandDetails) (command : String) :
    List String :=
  match registry command with
  | some details => details.asks
  | none => []

/-- `notification.py TelegramNotificationService._execute_command`: ask every
handler to process the command and concatenate their responses (a returned
list extends the responses, a returned dict is appended, `None` is skipped).
The `_search_in_handlers` lookup the code performs first is dead: its result
is logged and never used. -/
def execute_command (registry : String → Option CommandDetails)
    (handlers : List Handler) (command : String) (arguments : List String) :
    List TelegramPayload × List (String × List (String × PyVal)) :=
  handlers.foldl
    (fun acc handler =>
      let r := process_command registry handler command arguments
      let responses := match r.2 with
        | .many l => acc.1 ++ l
        | .one p => acc.1 ++ [p]
        | .nothing => acc.1
      let invs := match r.1 with
        | some kwargs => acc.2 ++ [(command, kwargs)]
        | none => acc.2
      (responses, invs))
    ([], [])

/-- `notification.py TelegramNotificationService._process_interactive_prompt`:
the ask/respond state machine over the history store. -/
def process_interactive_prompt (registry : String → Option CommandDetails)
    (handlers : List Handler) (action : String) (command : String)
    (arguments : List String) (chat_id : Int)
    (db : List InteractionRecord) : PromptOutcome :=
  let prompts := asksOf registry command
  if action == "ask" then
    if prompts.isEmpty then
      ⟨db, [], [ask_missing_payload], []⟩
    else
      ⟨log_prompt db ⟨action, command, arguments, 0⟩ chat_id,
        [question_payload (prompts.headD "")], [], []⟩
  else if action == "respond" then
    match get_last_active_prompt db chat_id with
    | none => ⟨db, [], [no_active_prompt_payload], []⟩
    | some current =>
        let next := current.current_prompt_index + 1
        if next < prompts.length then
          ⟨log_prompt db ⟨current.action, current.command, arguments, next⟩
              chat_id,
            [question_payload (prompts.getD next "")], [], []⟩
        else
          let r := execute_command registry handlers command arguments
          ⟨resolve_active_prompt db chat_id, [], r.1, r.2⟩
  else ⟨db, [], [], []⟩

/-- The `name` attribute of a dynamic enum member, modelled from the spec and
the standalone copy in `tests/bot-no-args.py`: leading slashes stripped,
uppercased, underscores removed, `"ROOT"` when nothing remains. -/
def enum_member_name (value : String) : String :=
  let name := String.mk
    (((value.data.dropWhile (fun c => c == '/')).map Char.toUpper).filter
      (fun c => !(c == '_')))
  if name == "" then "ROOT" else name

/-- Python `str.capitalize()`: first character uppercased, the rest
lowercased. -/
def capitalizePy (s : String) : String :=
  match s.data with
  | [] => ""
  | c :: cs => String.mk (c.toUpper :: cs.map Char.toLower)

/-- `name.replace("_", " ")` of `menu_keyboard`. -/
def replaceUnderscore (s : String) : String :=
  String.mk (s.data.map fun c => if c == '_' then ' ' else c)

/-- `tools/utils.py truncate_text`: keep `max_length - 3` characters and add
an ellipsis when the text is longer than `max_length`. -/
def truncate_text (text : String) (maxLength : Nat := 14) : String :=
  if maxLength < text.length then text.take (maxLength - 3) ++ "..." else text

/-- `[buttons[i:i + items_per_line] for i in range(0, len(buttons),
items_per_line)]`; the fuel argument (instantiated with the list length)
makes the recursion structural — Python's `range` requires a positive
step, and the call site fixes it at 3. -/
def chunkAux (n : Nat) : Nat → List (String × String) → List (List (String × String))
  | _, [] => []
  | 0, _ => []
  | fuel + 1, l => l.take n :: chunkAux n fuel (l.drop n)

/-- `notification.py TelegramNotificationService.menu_keyboard`: one payload
whose markup is the inline keyboard of command buttons, `items_per_line` per
row, each button labelled with the member name made readable and truncated to
14 characters and carrying the member's value as callback data. -/
def menu_keyboard (commands : List String) (items_per_line : Nat := 3) :
    List TelegramPayload :=
  let buttons := commands.map fun value =>
    (truncate_text (capitalizePy (replaceUnderscore (enum_member_name value))) 14,
      value)
  [⟨some "Voici les commandes disponibles:",
    some (.inlineKeyboard (chunkAux items_per_line buttons.length buttons))⟩]

/-- The top-menu collection of `_handle_text_message` for `/help` and
`/menu`: every `command_actions` key of every handler except the `/none`
sentinel, in handler and key order. -/
def top_menus (handlers : List Handler) : List String :=
  handlers.foldl
    (fun acc handler =>
      acc ++ (handler.command_actions.map Prod.fst).filter (fun m => !(m == "/none")))
    []

/-- `text.split(' ')[0]`: the characters before the first space. -/
def firstWord (s : String) : String :=
  String.mk (s.data.takeWhile (fun c => !(c == ' ')))

/-- The tail of `_handle_text_message` (lines 141-151): look the first word
up in `COMMAND_REGISTRY`; a command with questions starts an `ask` prompt, a
command without questions executes at once, an unknown command is dropped
with no message. -/
def handle_text_command (registry : String → Option CommandDetails)
    (handlers : List Handler) (db : List InteractionRecord) (text : String)
    (chat_id : Int) : PromptOutcome :=
  match registry (firstWord text) with
  | some details =>
      if !details.asks.isEmpty then
        process_interactive_prompt registry handlers "ask" (firstWord text) []
          chat_id db
      else
        let r := execute_command registry handlers (firstWord text) []
        ⟨db, [], r.1, r.2⟩
  | none => ⟨db, [], [], []⟩

/-- `notification.py TelegramNotificationService._handle_text_message`:
`/help` and `/menu` render the top menu; a chat with an active `ask` prompt
treats the whole text as the next argument and routes through `respond`;
otherwise the text is a command invocation. -/
def handle_text_message (registry : String → Option CommandDetails)
    (handlers : List Handler) (db : List InteractionRecord) (text : String)
    (chat_id : Int) : PromptOutcome :=
  if text == "/help" || text == "/menu" then
    ⟨db, [], menu_keyboard (top_menus handlers) 3, []⟩
  else
    match get_last_active_prompt db chat_id with
    | some current =>
        if current.action == "ask" then
          process_interactive_prompt registry handlers "respond"
            current.command (current.arguments ++ [text]) chat_id db
        else handle_text_command registry handlers db text chat_id
    | none => handle_text_command registry handlers db text chat_id

/-- Registry of the C1 witness scenario: `/greet` with questions
`["name?", "age?"]` and coercers `{name: str, age: int}`. -/
def greet_registry : String → Option CommandDetails :=
  fun c =>
    if c == "/greet" then
      some ⟨"greet", ["name?", "age?"], [("name", .str), ("age", .int)],
        ["name", "age"]⟩
    else none

/-- Handler of the C1 witness scenario: it owns the method `greet`. -/
def greet_handler : Handler :=
  ⟨["greet"], [], fun _ _ => .nothing⟩

/-! ### First theorems: outbound-queue validity (C8) and the retry policy
(C5, C6). -/

/-- C8: a payload whose text and markup are both empty or missing is never
enqueued by `send_message`, and every `send_message` call preserves the
invariant that all queued payloads are valid. -/
theorem send_message_valid_invariant
    (q msgs : List TelegramPayload)
    (hq : ∀ m ∈ q, is_valid_message m = true) :
    (∀ m, is_empty_or_none_str m.text = true →
        is_empty_or_none_markup m.reply_markup = true →
        send_message q [m] = q) ∧
    (∀ m ∈ send_message q msgs, is_valid_message m = true) := by
  constructor
  · intro m ht hm
    have hv : is_valid_message m = false := by
      simp [is_valid_message, ht, hm]
    simp [send_message, hv]
  · induction msgs generalizing q with
    | nil => simpa [send_message] using hq
    | cons m rest ih =>
        intro x hx
        by_cases hv : is_valid_message m = true
        · refine ih (q ++ [m]) ?_ x ?_
          · intro y hy
            rcases List.mem_append.mp hy with h | h
            · exact hq y h
            · simpa [List.mem_singleton.mp h] using hv
          · simpa [send_message, hv] using hx
        · have hv' : is_valid_message m = false := by
            cases h : is_valid_message m
            · rfl
            · exact absurd h hv
          refine ih q hq x ?_
          simpa [send_message, hv'] using hx

/-- C8 witness at a concrete queue: the empty payload is dropped and the
queue `[{text := "hi"}]` keeps only valid entries after enqueuing it. -/
theorem send_message_valid_invariant_witness :
    (send_message [⟨some "hi", some (.str "")⟩]
        [⟨some "", none⟩] = [⟨some "hi", some (.str "")⟩]) ∧
    (∀ m ∈ send_message [⟨some "hi", some (.str "")⟩] [⟨some "", none⟩],
        is_valid_message m = true) := by
  have h := send_message_valid_invariant
      [⟨some "hi", some (.str "")⟩] [⟨some "", none⟩]
      (by intro m hm; simp at hm; subst hm; decide)
  exact ⟨h.1 ⟨some "", none⟩ (by decide) (by decide), h.2⟩

/-- C5: a first attempt failing with HTTP 400 makes exactly one attempt,
surfaces `TelegramAPIError` carrying status 400 and never sleeps; a first
attempt failing with HTTP 500 followed by a success makes exactly two
attempts and returns the successful response. -/
theorem post_with_retry_400_and_500_then_ok :
    post_with_retry (fun _ => .httpError 400) 3 =
      { attempts := 1, sleeps := [], result := .apiError (some 400) } ∧
    post_with_retry
        (fun n => match n with
          | 0 => .httpError 500
          | _ => .success 7) 3 =
      { attempts := 2, sleeps := [(0, 2 ^ 0 * (1 / 2 : ℚ))], result := .ok 7 } := by
  constructor
  · rfl
  · rfl

/-- Every sleep recorded by the retry loop obeys the backoff formula and the
`attempt < max_retries - 1` guard; helper for the C6 theorem. -/
theorem postLoop_sleeps (outcomes : Nat → AttemptOutcome) (maxRetries : Nat) :
    ∀ (remaining : Nat) (lastHttp : Bool) (a : Nat) (d : ℚ),
      (a, d) ∈ (postLoop outcomes maxRetries remaining lastHttp).sleeps →
      d = 2 ^ a * (1 / 2 : ℚ) ∧ a < maxRetries - 1 := by
  intro remaining
  induction remaining with
  | zero => intro lastHttp a d h; simp [postLoop] at h
  | succ n ih =>
      intro lastHttp a d h
      simp only [postLoop] at h
      rcases houtcome : outcomes (maxRetries - (n + 1)) with resp | status | _ | _ <;>
        simp only [houtcome] at h
      · simp at h
      · by_cases hnr : nonRecoverableStatus status = true
        · simp [hnr] at h
        · simp only [Bool.not_eq_true] at hnr
          simp only [hnr, Bool.false_eq_true, if_false] at h
          by_cases hlt : maxRetries - (n + 1) < maxRetries - 1
          · simp only [hlt, if_true, List.mem_cons, Prod.mk.injEq] at h
            rcases h with ⟨ha, hd⟩ | h
            · subst ha; exact ⟨hd, hlt⟩
            · exact ih true a d h
          · simp only [hlt, if_false] at h
            exact ih true a d h
      · by_cases hlt : maxRetries - (n + 1) < maxRetries - 1
        · simp only [hlt, if_true, List.mem_cons, Prod.mk.injEq] at h
          rcases h with ⟨ha, hd⟩ | h
          · subst ha; exact ⟨hd, hlt⟩
          · exact ih false a d h
        · simp only [hlt, if_false] at h
          exact ih false a d h
      · simp at h

/-- C6: for every sequence of attempt outcomes, every backoff sleep performed
by `_post_with_retry` before retrying after attempt `a` lasts exactly
`0.5 × 2^a` seconds, and no sleep follows the final attempt
(`a < max_retries - 1` always holds for a recorded sleep). -/
theorem post_with_retry_backoff (outcomes : Nat → AttemptOutcome)
    (maxRetries : Nat) (a : Nat) (d : ℚ)
    (h : (a, d) ∈ (post_with_retry outcomes maxRetries).sleeps) :
    d = 2 ^ a * (1 / 2 : ℚ) ∧ a < maxRetries - 1 :=
  postLoop_sleeps outcomes maxRetries maxRetries false a d h

/-- C6 witness: with three attempts all failing on HTTP 500, the sleep after
attempt 1 is recorded, and the theorem yields its exact duration `1` second
together with the no-sleep-after-final-attempt bound. -/
theorem post_with_retry_backoff_witness :
    ((1, (1 : ℚ)) ∈ (post_with_retry (fun _ => .httpError 500) 3).sleeps) ∧
    ((1 : ℚ) = 2 ^ 1 * (1 / 2 : ℚ) ∧ 1 < 3 - 1) := by
  have hmem : ((1, (1 : ℚ)) ∈ (post_with_retry (fun _ => .httpError 500) 3).sleeps) := by
    norm_num [post_with_retry, postLoop, nonRecoverableStatus]
  exact ⟨hmem, post_with_retry_backoff (fun _ => .httpError 500) 3 1 1 hmem⟩

/-- `takeWhile` over a list that satisfies the predicate followed by an
element that does not keeps exactly the first part. -/
theorem takeWhile_sat_append (p : Char → Bool) (l : List Char) (c : Char)
    (r : List Char) (hl : ∀ x ∈ l, p x = true) (hc : p c = false) :
    (l ++ c :: r).takeWhile p = l := by
  induction l with
  | nil => simp [List.takeWhile, hc]
  | cons a t ih =>
      have ha : p a = true := hl a (List.mem_cons_self a t)
      simp only [List.cons_append, List.takeWhile, ha]
      exact congrArg (a :: ·) (ih fun x hx => hl x (List.mem_cons_of_mem a hx))

/-- `dropWhile` over a list that satisfies the predicate followed by an
element that does not drops exactly the first part. -/
theorem dropWhile_sat_append (p : Char → Bool) (l : List Char) (c : Char)
    (r : List Char) (hl : ∀ x ∈ l, p x = true) (hc : p c = false) :
    (l ++ c :: r).dropWhile p = c :: r := by
  induction l with
  | nil => simp [List.dropWhile, hc]
  | cons a t ih =>
      have ha : p a = true := hl a (List.mem_cons_self a t)
      simp only [List.cons_append, List.dropWhile, ha]
      exact ih fun x hx => hl x (List.mem_cons_of_mem a hx)

/-- C7: the callback mini-protocol round-trips.  For every verb of the
grammar and every non-empty word-character command token, parsing the
encoding `<verb>:/<token>:a;b` yields back the same verb, the same
slash-prefixed command token and the argument list `["a", "b"]`. -/
theorem parse_command_roundtrip (v : List Char) (hv : v ∈ promptVerbs)
    (token : List Char) (hne : token ≠ [])
    (hword : ∀ c ∈ token, isWordChar c = true) :
    parse_command (v ++ ':' :: '/' :: (token ++ ':' :: ['a', ';', 'b'])) =
      (some (String.mk v), some (String.mk ('/' :: token)), ["a", "b"]) := by
  have htw : (token ++ ':' :: ['a', ';', 'b']).takeWhile isWordChar = token :=
    takeWhile_sat_append isWordChar token ':' ['a', ';', 'b'] hword (by decide)
  have hdw : (token ++ ':' :: ['a', ';', 'b']).dropWhile isWordChar =
      ':' :: ['a', ';', 'b'] :=
    dropWhile_sat_append isWordChar token ':' ['a', ';', 'b'] hword (by decide)
  have hemp : token.isEmpty = false := by
    cases token with
    | nil => exact absurd rfl hne
    | cons a t => rfl
  have hsplit : splitSemi ['a', ';', 'b'] = ["a", "b"] := by decide
  simp only [promptVerbs, List.mem_cons, List.not_mem_nil, or_false] at hv
  rcases hv with rfl | rfl | rfl | rfl <;>
    simp [parse_command, stripVerb, matchLiteral, parseBody, htw, hdw, hemp,
      argsOfParams, hsplit, cast_to_enum]

/-- A coercion-loop failure really is a failing coercion: the reported type
is the one declared for the reported argument name and it rejects the
reported value. -/
theorem coerceArgs_error_coerce (kwargs_types : List (String × PyType)) :
    ∀ (ns vs : List String) (n : String) (t : PyType) (v : String),
      coerceArgs kwargs_types ns vs = .error (n, t, v) →
      t = lookupType kwargs_types n ∧ coerce t v = none := by
  intro ns
  induction ns with
  | nil => intro vs n t v h; simp [coerceArgs] at h
  | cons m ms ih =>
      intro vs n t v h
      cases vs with
      | nil => simp [coerceArgs] at h
      | cons w ws =>
          simp only [coerceArgs] at h
          rcases hc : coerce (lookupType kwargs_types m) w with _ | val
          · simp only [hc, Except.error.injEq, Prod.mk.injEq] at h
            obtain ⟨rfl, rfl, rfl⟩ := h
            exact ⟨rfl, hc⟩
          · simp only [hc] at h
            rcases hrest : coerceArgs kwargs_types ms ws with e | rest
            · simp only [hrest, Except.error.injEq] at h
              exact ih ws n t v (by rw [hrest, h])
            · simp [hrest] at h

/-- C9: for a command a handler owns, an argument-count mismatch returns the
arity diagnostic payload (no exception), and a coercion failure returns the
diagnostic payload naming the bad argument value and the expected type
without ever invoking the bound method. -/
theorem process_command_argument_validation
    (registry : String → Option CommandDetails) (handler : Handler)
    (command : String) (arguments : List String) (details : CommandDetails)
    (hreg : registry command = some details)
    (hown : details.action_name ∈ handler.ownedMethods) :
    (arguments.length ≠ details.arg_names.length →
      process_command registry handler command arguments =
        (none, .one arity_error_payload)) ∧
    (arguments.length = details.arg_names.length →
      ∀ (n : String) (t : PyType) (v : String),
        coerceArgs details.kwargs_types details.arg_names arguments =
          .error (n, t, v) →
        process_command registry handler command arguments =
            (none, .one (coercion_error_payload v n t)) ∧
          coerce t v = none ∧
          (process_command registry handler command arguments).1 = none) := by
  constructor
  · intro hlen
    simp [process_command, hreg, hown, hlen]
  · intro hlen n t v herr
    have hc := (coerceArgs_error_coerce details.kwargs_types details.arg_names
      arguments n t v herr).2
    have hp : process_command registry handler command arguments =
        (none, .one (coercion_error_payload v n t)) := by
      simp [process_command, hreg, hown, hlen, herr]
    exact ⟨hp, hc, by rw [hp]⟩

/-- C9 witness: for a registry owning `/set` with one `int` argument `age`,
two arguments trigger the arity diagnostic and the non-numeric argument
`abc` triggers the coercion diagnostic with no invocation. -/
theorem process_command_argument_validation_witness :
    (process_command
        (fun c => if c == "/set" then
          some ⟨"set", [], [("age", .int)], ["age"]⟩ else none)
        ⟨["set"], [], fun _ _ => .nothing⟩ "/set" ["1", "2"] =
      (none, .one arity_error_payload)) ∧
    (process_command
        (fun c => if c == "/set" then
          some ⟨"set", [], [("age", .int)], ["age"]⟩ else none)
        ⟨["set"], [], fun _ _ => .nothing⟩ "/set" ["abc"] =
      (none, .one (coercion_error_payload "abc" "age" .int))) := by
  have h1 := process_command_argument_validation
      (fun c => if c == "/set" then
        some ⟨"set", [], [("age", .int)], ["age"]⟩ else none)
      ⟨["set"], [], fun _ _ => .nothing⟩ "/set" ["1", "2"]
      ⟨"set", [], [("age", .int)], ["age"]⟩ (by decide) (by decide)
  have h2 := process_command_argument_validation
      (fun c => if c == "/set" then
        some ⟨"set", [], [("age", .int)], ["age"]⟩ else none)
      ⟨["set"], [], fun _ _ => .nothing⟩ "/set" ["abc"]
      ⟨"set", [], [("age", .int)], ["age"]⟩ (by decide) (by decide)
  exact ⟨h1.1 (by decide),
    (h2.2 (by decide) "age" .int "abc" (by rfl)).1⟩

/-- C4 counterexample: executing a command absent from the Command Registry
is not silent — `process_command` returns the user-visible diagnostic
payload `Commande '/xyz' non reconnue.` instead of `None`. -/
theorem process_command_unregistered_cex :
    (process_command (fun _ => none) ⟨[], [], fun _ _ => .nothing⟩
        "/xyz" []).2 = .one (unknown_command_payload "/xyz") ∧
    (process_command (fun _ => none) ⟨[], [], fun _ _ => .nothing⟩
        "/xyz" []).2 ≠ .nothing := by
  constructor
  · rfl
  · intro h
    simp [process_command] at h

/-- C4 amended: the silent skip applies to a command that is registered but
whose action method the handler does not own — `process_command` then
returns `None` and produces no payload, regardless of the arguments; a
command absent from the registry instead yields the `non reconnue`
diagnostic payload. -/
theorem process_command_ownership_skip
    (registry : String → Option CommandDetails) (handler : Handler)
    (command : String) (arguments : List String) :
    (∀ details, registry command = some details →
      details.action_name ∉ handler.ownedMethods →
      process_command registry handler command arguments = (none, .nothing)) ∧
    (registry command = none →
      process_command registry handler command arguments =
        (none, .one (unknown_command_payload command))) := by
  constructor
  · intro details hreg hnot
    simp [process_command, hreg, hnot]
  · intro hreg
    simp [process_command, hreg]

/-- C4 witness: a handler that does not own the method `other` skips the
registered command `/other` silently, and the unregistered `/xyz` yields the
diagnostic payload. -/
theorem process_command_ownership_skip_witness :
    (process_command
        (fun c => if c == "/other" then some ⟨"other", [], [], []⟩ else none)
        ⟨["set"], [], fun _ _ => .nothing⟩ "/other" ["a"] = (none, .nothing)) ∧
    (process_command (fun _ => none) ⟨["set"], [], fun _ _ => .nothing⟩
        "/abc" [] = (none, .one (unknown_command_payload "/abc"))) :=
  ⟨(process_command_ownership_skip
      (fun c => if c == "/other" then some ⟨"other", [], [], []⟩ else none)
      ⟨["set"], [], fun _ _ => .nothing⟩ "/other" ["a"]).1
      ⟨"other", [], [], []⟩ (by decide) (by decide),
    (process_command_ownership_skip (fun _ => none)
      ⟨["set"], [], fun _ _ => .nothing⟩ "/abc" []).2 rfl⟩

/-- After `resolve_active_prompt`, no active prompt row for the chat
remains, so the last-active-prompt query returns nothing. -/
theorem get_last_active_prompt_resolve (db : List InteractionRecord)
    (chat : Int) :
    get_last_active_prompt (resolve_active_prompt db chat) chat = none := by
  have hfind : (resolve_active_prompt db chat).reverse.find?
      (is_active_prompt_row chat) = none := by
    rw [List.find?_eq_none]
    intro x hx
    rw [List.mem_reverse, resolve_active_prompt, List.mem_map] at hx
    rcases hx with ⟨r, _, hfr⟩
    subst hfr
    by_cases hc : (r.chat_id == chat && r.prompt_status == some "active") = true
    · rw [if_pos hc]
      simp [is_active_prompt_row]
    · rw [if_neg hc]
      intro habs
      rw [is_active_prompt_row, Bool.and_eq_true, Bool.and_eq_true] at habs
      exact hc (by rw [Bool.and_eq_true]; exact ⟨habs.1.1, habs.2⟩)
  simp [get_last_active_prompt, hfind]

/-- The prompt logged last is the one the last-active-prompt query
returns. -/
theorem get_last_active_prompt_log (db : List InteractionRecord)
    (p : CurrentPrompt) (chat : Int) :
    get_last_active_prompt (log_prompt db p chat) chat = some p := by
  simp [get_last_active_prompt, log_prompt, is_active_prompt_row]

/-- C10: immediately after `resolve_active_prompt`, the last-active-prompt
query for that chat returns nothing; every record of the chat loses `active`
status (not only the most recent one); and every record of another chat is
unchanged, position by position. -/
theorem resolve_active_prompt_spec (db : List InteractionRecord) (chat : Int) :
    get_last_active_prompt (resolve_active_prompt db chat) chat = none ∧
    (∀ r ∈ resolve_active_prompt db chat, r.chat_id = chat →
      r.prompt_status ≠ some "active") ∧
    (∀ (i : Nat) (r : InteractionRecord), db[i]? = some r → r.chat_id ≠ chat →
      (resolve_active_prompt db chat)[i]? = some r) := by
  refine ⟨get_last_active_prompt_resolve db chat, ?_, ?_⟩
  · intro x hx hchat
    rw [resolve_active_prompt, List.mem_map] at hx
    rcases hx with ⟨r, _, hfr⟩
    subst hfr
    by_cases hc : (r.chat_id == chat && r.prompt_status == some "active") = true
    · rw [if_pos hc]
      intro habs
      exact absurd (Option.some.inj habs) (by decide)
    · rw [if_neg hc] at hchat ⊢
      intro habs
      exact hc (by simp [hchat, habs])
  · intro i r hget hchat
    rw [resolve_active_prompt, List.getElem?_map, hget, Option.map_some']
    have hc : (r.chat_id == chat && r.prompt_status == some "active") = false := by
      rw [Bool.and_eq_false_iff]
      exact Or.inl (by rw [beq_eq_false_iff_ne]; exact hchat)
    rw [if_neg (by rw [hc]; exact Bool.false_ne_true)]

/-- C10 witness: a store holding two active prompt rows for chat 1 around an
active row for chat 2 — after resolving chat 1, its query finds nothing, a
resolved row of chat 1 is no longer active, and chat 2's row is untouched at
its position. -/
theorem resolve_active_prompt_spec_witness :
    get_last_active_prompt
        (resolve_active_prompt
          [⟨"system", 1, "prompt_start", some ⟨"ask", "/a", [], 0⟩, true, some "active"⟩,
           ⟨"system", 2, "prompt_start", some ⟨"ask", "/b", [], 0⟩, true, some "active"⟩,
           ⟨"system", 1, "prompt_start", some ⟨"ask", "/a", ["x"], 1⟩, true, some "active"⟩] 1) 1 = none ∧
    (resolve_active_prompt
        [⟨"system", 1, "prompt_start", some ⟨"ask", "/a", [], 0⟩, true, some "active"⟩,
         ⟨"system", 2, "prompt_start", some ⟨"ask", "/b", [], 0⟩, true, some "active"⟩,
         ⟨"system", 1, "prompt_start", some ⟨"ask", "/a", ["x"], 1⟩, true, some "active"⟩] 1)[1]? =
      some ⟨"system", 2, "prompt_start", some ⟨"ask", "/b", [], 0⟩, true, some "active"⟩ := by
  have h := resolve_active_prompt_spec
      [⟨"system", 1, "prompt_start", some ⟨"ask", "/a", [], 0⟩, true, some "active"⟩,
       ⟨"system", 2, "prompt_start", some ⟨"ask", "/b", [], 0⟩, true, some "active"⟩,
       ⟨"system", 1, "prompt_start", some ⟨"ask", "/a", ["x"], 1⟩, true, some "active"⟩] 1
  exact ⟨h.1,
    h.2.2 1 ⟨"system", 2, "prompt_start", some ⟨"ask", "/b", [], 0⟩, true, some "active"⟩
      (by decide) (by decide)⟩

/-- C3 counterexample: a `respond` action arriving with no active prompt for
the chat does not return an empty message list — it returns one error
payload `Erreur : Aucun prompt actif.`. -/
theorem respond_without_active_prompt_cex :
    (process_interactive_prompt (fun _ => none) [] "respond" "/x" [] 1
        []).returned = [no_active_prompt_payload] ∧
    (process_interactive_prompt (fun _ => none) [] "respond" "/x" [] 1
        []).returned ≠ [] := by
  constructor
  · rfl
  · intro h
    simp [process_interactive_prompt, get_last_active_prompt] at h

/-- C3 amended: a `respond` action for a chat with no active prompt logs a
warning and returns exactly one error payload (`Erreur : Aucun prompt
actif.`), touching neither the store nor the handlers. -/
theorem respond_without_active_prompt
    (registry : String → Option CommandDetails) (handlers : List Handler)
    (command : String) (arguments : List String) (chat : Int)
    (db : List InteractionRecord)
    (h : get_last_active_prompt db chat = none) :
    process_interactive_prompt registry handlers "respond" command arguments
        chat db = ⟨db, [], [no_active_prompt_payload], []⟩ := by
  simp [process_interactive_prompt, h]

/-- C3 amended witness at the empty store. -/
theorem respond_without_active_prompt_witness :
    process_interactive_prompt (fun _ => none) [] "respond" "/x" [] 1 [] =
      ⟨[], [], [no_active_prompt_payload], []⟩ :=
  respond_without_active_prompt (fun _ => none) [] "/x" [] 1 [] rfl

/-- C2 counterexample: an `ask` action carrying two pre-supplied arguments
for a command with two questions does not persist index 2, does not resolve
or execute — it emits the first question, logs the prompt at index 0 with
`active` status and invokes nothing. -/
theorem ask_with_presupplied_args_cex :
    (process_interactive_prompt
        (fun c => if c == "/greet" then
          some ⟨"greet", ["q0", "q1"], [], []⟩ else none)
        [] "ask" "/greet" ["a", "b"] 1 []).invocations = [] ∧
    (process_interactive_prompt
        (fun c => if c == "/greet" then
          some ⟨"greet", ["q0", "q1"], [], []⟩ else none)
        [] "ask" "/greet" ["a", "b"] 1 []).sent = [question_payload "q0"] ∧
    (process_interactive_prompt
        (fun c => if c == "/greet" then
          some ⟨"greet", ["q0", "q1"], [], []⟩ else none)
        [] "ask" "/greet" ["a", "b"] 1 []).db =
      [⟨"system", 1, "prompt_start", some ⟨"ask", "/greet", ["a", "b"], 0⟩,
        true, some "active"⟩] ∧
    ∀ r ∈ (process_interactive_prompt
        (fun c => if c == "/greet" then
          some ⟨"greet", ["q0", "q1"], [], []⟩ else none)
        [] "ask" "/greet" ["a", "b"] 1 []).db,
      r.prompt ≠ some ⟨"ask", "/greet", ["a", "b"], 2⟩ := by
  refine ⟨rfl, rfl, rfl, ?_⟩
  intro r hr
  have hre : r = ⟨"system", 1, "prompt_start",
      some ⟨"ask", "/greet", ["a", "b"], 0⟩, true, some "active"⟩ := by
    simpa [process_interactive_prompt, asksOf, log_prompt] using hr
  rw [hre]
  intro habs
  exact absurd (Option.some.inj habs) (by decide)

/-- C2 amended: an `ask` action on a command with at least one declared
question always persists the prompt with the supplied argument strings and
index 0 (never the argument count), always emits the first question, and
never resolves the prompt or executes the command, regardless of how many
arguments were pre-supplied. -/
theorem ask_always_first_question
    (registry : String → Option CommandDetails) (handlers : List Handler)
    (command : String) (arguments : List String) (chat : Int)
    (db : List InteractionRecord) (details : CommandDetails)
    (hreg : registry command = some details) (hasks : details.asks ≠ []) :
    process_interactive_prompt registry handlers "ask" command arguments chat
        db =
      ⟨log_prompt db ⟨"ask", command, arguments, 0⟩ chat,
        [question_payload (details.asks.headD "")], [], []⟩ := by
  have h1 : asksOf registry command = details.asks := by simp [asksOf, hreg]
  have h2 : details.asks.isEmpty = false := by
    rcases hh : details.asks with _ | ⟨a, t⟩
    · exact absurd hh hasks
    · rfl
  simp [process_interactive_prompt, h1, h2]

/-- C2 amended witness: two pre-supplied arguments still log index 0 and emit
the first of two questions. -/
theorem ask_always_first_question_witness :
    process_interactive_prompt
        (fun c => if c == "/greet" then
          some ⟨"greet", ["q0", "q1"], [], []⟩ else none)
        [] "ask" "/greet" ["a", "b"] 1 [] =
      ⟨log_prompt [] ⟨"ask", "/greet", ["a", "b"], 0⟩ 1,
        [question_payload "q0"], [], []⟩ :=
  ask_always_first_question
    (fun c => if c == "/greet" then
      some ⟨"greet", ["q0", "q1"], [], []⟩ else none)
    [] "/greet" ["a", "b"] 1 [] ⟨"greet", ["q0", "q1"], [], []⟩ rfl
    (by decide)

/-- C7 witness: the round-trip at verb `respond` and token `/cmd`. -/
theorem parse_command_roundtrip_witness :
    parse_command
        (['r', 'e', 's', 'p', 'o', 'n', 'd'] ++ ':' :: '/' ::
          (['c', 'm', 'd'] ++ ':' :: ['a', ';', 'b'])) =
      (some (String.mk ['r', 'e', 's', 'p', 'o', 'n', 'd']),
        some (String.mk ('/' :: ['c', 'm', 'd'])), ["a", "b"]) :=
  parse_command_roundtrip ['r', 'e', 's', 'p', 'o', 'n', 'd'] (by decide)
    ['c', 'm', 'd'] (by decide) (by decide)

/-- C1: the three-step `/greet` scenario.  A text update invoking a command
registered with two questions and coercers `{name: str, age: int}` emits the
first question and logs an active prompt with action `ask`, empty arguments
and index 0; the next text update (`Alice`) emits the second question and
logs the prompt with arguments `["Alice"]` and index 1; the following text
update (`30`) resolves the active prompt and invokes the bound handler
method exactly once with keyword arguments `name = "Alice"` and `age = 30`,
emitting no further question payload. -/
theorem greet_scenario
    (registry : String → Option CommandDetails) (handler : Handler)
    (db : List InteractionRecord) (chat : Int) (cmd q1 q2 aname : String)
    (hreg : registry cmd =
      some ⟨aname, [q1, q2], [("name", .str), ("age", .int)], ["name", "age"]⟩)
    (hown : aname ∈ handler.ownedMethods)
    (hh : cmd ≠ "/help") (hm : cmd ≠ "/menu")
    (hfw : firstWord cmd = cmd)
    (hnp : get_last_active_prompt db chat = none) :
    handle_text_message registry [handler] db cmd chat =
      ⟨log_prompt db ⟨"ask", cmd, [], 0⟩ chat, [question_payload q1], [], []⟩ ∧
    handle_text_message registry [handler]
        (log_prompt db ⟨"ask", cmd, [], 0⟩ chat) "Alice" chat =
      ⟨log_prompt (log_prompt db ⟨"ask", cmd, [], 0⟩ chat)
          ⟨"ask", cmd, ["Alice"], 1⟩ chat,
        [question_payload q2], [], []⟩ ∧
    (handle_text_message registry [handler]
        (log_prompt (log_prompt db ⟨"ask", cmd, [], 0⟩ chat)
          ⟨"ask", cmd, ["Alice"], 1⟩ chat) "30" chat).db =
      resolve_active_prompt
        (log_prompt (log_prompt db ⟨"ask", cmd, [], 0⟩ chat)
          ⟨"ask", cmd, ["Alice"], 1⟩ chat) chat ∧
    (handle_text_message registry [handler]
        (log_prompt (log_prompt db ⟨"ask", cmd, [], 0⟩ chat)
          ⟨"ask", cmd, ["Alice"], 1⟩ chat) "30" chat).sent = [] ∧
    (handle_text_message registry [handler]
        (log_prompt (log_prompt db ⟨"ask", cmd, [], 0⟩ chat)
          ⟨"ask", cmd, ["Alice"], 1⟩ chat) "30" chat).invocations =
      [(cmd, [("name", PyVal.s "Alice"), ("age", PyVal.i 30)])] ∧
    get_last_active_prompt
      (handle_text_message registry [handler]
        (log_prompt (log_prompt db ⟨"ask", cmd, [], 0⟩ chat)
          ⟨"ask", cmd, ["Alice"], 1⟩ chat) "30" chat).db chat = none := by
  have hcond : (cmd == "/help" || cmd == "/menu") = false := by
    rw [Bool.or_eq_false_iff]
    constructor <;> rw [beq_eq_false_iff_ne]
    · exact hh
    · exact hm
  have hasks : asksOf registry cmd = [q1, q2] := by simp [asksOf, hreg]
  have hs1 : handle_text_message registry [handler] db cmd chat =
      ⟨log_prompt db ⟨"ask", cmd, [], 0⟩ chat, [question_payload q1], [], []⟩ := by
    simp [handle_text_message, hcond, hnp, handle_text_command, hfw, hreg,
      process_interactive_prompt, hasks]
  have hlast1 : get_last_active_prompt
      (log_prompt db ⟨"ask", cmd, [], 0⟩ chat) chat = some ⟨"ask", cmd, [], 0⟩ :=
    get_last_active_prompt_log db ⟨"ask", cmd, [], 0⟩ chat
  have hs2 : handle_text_message registry [handler]
      (log_prompt db ⟨"ask", cmd, [], 0⟩ chat) "Alice" chat =
      ⟨log_prompt (log_prompt db ⟨"ask", cmd, [], 0⟩ chat)
          ⟨"ask", cmd, ["Alice"], 1⟩ chat,
        [question_payload q2], [], []⟩ := by
    simp [handle_text_message, hlast1, process_interactive_prompt, hasks]
  have hlast2 : get_last_active_prompt
      (log_prompt (log_prompt db ⟨"ask", cmd, [], 0⟩ chat)
        ⟨"ask", cmd, ["Alice"], 1⟩ chat) chat = some ⟨"ask", cmd, ["Alice"], 1⟩ :=
    get_last_active_prompt_log (log_prompt db ⟨"ask", cmd, [], 0⟩ chat)
      ⟨"ask", cmd, ["Alice"], 1⟩ chat
  have hco : coerceArgs [("name", PyType.str), ("age", PyType.int)]
      ["name", "age"] ["Alice", "30"] =
      .ok [("name", PyVal.s "Alice"), ("age", PyVal.i 30)] := by rfl
  have hpc : process_command registry handler cmd ["Alice", "30"] =
      (some [("name", PyVal.s "Alice"), ("age", PyVal.i 30)],
        handler.run cmd [("name", PyVal.s "Alice"), ("age", PyVal.i 30)]) := by
    simp [process_command, hreg, hown, hco]
  have hs3 : handle_text_message registry [handler]
      (log_prompt (log_prompt db ⟨"ask", cmd, [], 0⟩ chat)
        ⟨"ask", cmd, ["Alice"], 1⟩ chat) "30" chat =
      ⟨resolve_active_prompt
          (log_prompt (log_prompt db ⟨"ask", cmd, [], 0⟩ chat)
            ⟨"ask", cmd, ["Alice"], 1⟩ chat) chat,
        [],
        (execute_command registry [handler] cmd ["Alice", "30"]).1,
        (execute_command registry [handler] cmd ["Alice", "30"]).2⟩ := by
    simp [handle_text_message, hlast2, process_interactive_prompt, hasks]
  have hinv : (execute_command registry [handler] cmd ["Alice", "30"]).2 =
      [(cmd, [("name", PyVal.s "Alice"), ("age", PyVal.i 30)])] := by
    simp [execute_command, hpc]
  refine ⟨hs1, hs2, ?_, ?_, ?_, ?_⟩
  · rw [hs3]
  · rw [hs3]
  · rw [hs3]; exact hinv
  · rw [hs3]
    exact get_last_active_prompt_resolve
      (log_prompt (log_prompt db ⟨"ask", cmd, [], 0⟩ chat)
        ⟨"ask", cmd, ["Alice"], 1⟩ chat) chat

/-- C1 witness: the scenario run concretely from an empty store with
`/greet`, answers `Alice` and `30`. -/
theorem greet_scenario_witness :
    handle_text_message greet_registry [greet_handler] [] "/greet" 1 =
      ⟨log_prompt [] ⟨"ask", "/greet", [], 0⟩ 1, [question_payload "name?"],
        [], []⟩ ∧
    (handle_text_message greet_registry [greet_handler]
        (log_prompt (log_prompt [] ⟨"ask", "/greet", [], 0⟩ 1)
          ⟨"ask", "/greet", ["Alice"], 1⟩ 1) "30" 1).invocations =
      [("/greet", [("name", PyVal.s "Alice"), ("age", PyVal.i 30)])] := by
  have h := greet_scenario greet_registry greet_handler [] 1 "/greet"
    "name?" "age?" "greet" (by rfl) (by decide) (by decide) (by decide)
    (by decide) (by rfl)
  exact ⟨h.1, h.2.2.2.2.1⟩
